import Mathlib

/-!
Shallow embedding of `portfolio-website/theme.js` (the Theme Controller):
time-of-day phase resolution, the persisted mode store, effective-theme
resolution, the toggle cycle, the label and root-attribute update, the
boundary-delay computation, the one-shot boundary scheduler, the
navigation active-state matcher, and the standalone pre-paint path.

Modelling conventions:
* The persistence backend (localStorage restricted to the one key
  `portfolio-theme-mode`) is `Store := Option (Option String)`:
  `none` is a throwing/unavailable backend, `some none` an available
  backend with the key unset (getItem returns null), `some (some v)` an
  available backend holding `v`.
* The system dark-mode preference (window.matchMedia) is `Option Bool`:
  `none` means the query throws, `some b` means `matches = b`.
* Wall-clock reads (Date getHours/getMinutes/getSeconds and the
  millisecond component of getTime) are passed as explicit Nat inputs.
* JS strings stay strings; JS exceptions caught in the source become the
  corresponding fallback branches, so every function is total.
-/

/-- The persistence backend at the single theme key:
`none` = throwing backend, `some none` = key unset, `some (some v)` = value. -/
def Store : Type := Option (Option String)

instance : DecidableEq Store := by
  unfold Store; infer_instance

/-- theme.js line 17: `const THEME_MODES = ['auto', 'light', 'dark']`. -/
def THEME_MODES : List String := ["auto", "light", "dark"]

/-- theme.js lines 33-41: phase from the local hour (`now.getHours()`). -/
def getCurrentPhase (hour : Nat) : String :=
  if 5 ≤ hour ∧ hour < 10 then "morning"
  else if 10 ≤ hour ∧ hour < 16 then "afternoon"
  else if 16 ≤ hour ∧ hour < 19 then "evening"
  else "night"

/-- theme.js lines 46-53: read the stored mode; invalid, unset (null) or a
throwing backend all yield "auto". -/
def getStoredThemeMode (store : Store) : String :=
  match store with
  | none => "auto"
  | some stored =>
    match stored with
    | some s => if THEME_MODES.contains s then s else "auto"
    | none => "auto"

/-- theme.js lines 58-64: write the mode; on a throwing backend the error is
swallowed and the store is unchanged. -/
def storeThemeMode (store : Store) (mode : String) : Store :=
  match store with
  | none => none
  | some _ => some (some mode)

/-- theme.js lines 69-75: system preference; a throwing matchMedia yields
"light". -/
def getSystemTheme (sysPref : Option Bool) : String :=
  match sysPref with
  | none => "light"
  | some m => if m then "dark" else "light"

/-- theme.js lines 80-85: effective theme from mode and system preference. -/
def getEffectiveTheme (mode : String) (sysPref : Option Bool) : String :=
  if mode == "auto" then getSystemTheme sysPref else mode

/-- theme.js lines 102-122: the toggle label text (the switch statement). -/
def updateThemeLabel (mode phase : String) : String :=
  if mode == "auto" then "Auto • " ++ phase
  else if mode == "light" then "Light"
  else if mode == "dark" then "Dark"
  else "Auto"

/-- The observable outcome of one full theme update: the three root
attributes set by applyTheme (lines 90-97) and the label text (lines
102-122). -/
structure ThemeUpdate where
  dataMode : String
  dataTheme : String
  dataPhase : String
  label : String
deriving DecidableEq

/-- theme.js lines 199-205: the main update; re-reads the store, recomputes
the phase, applies attributes and label. -/
def updateTheme (store : Store) (sysPref : Option Bool) (hour : Nat) : ThemeUpdate :=
  let mode := getStoredThemeMode store
  let phase := getCurrentPhase hour
  { dataMode := mode
    dataTheme := getEffectiveTheme mode sysPref
    dataPhase := phase
    label := updateThemeLabel mode phase }

/-- JS `Array.prototype.indexOf`: -1 when absent. -/
def jsIndexOf : List String → String → Int
  | [], _ => -1
  | a :: as, s =>
    if a == s then 0
    else
      let r := jsIndexOf as s
      if r == -1 then -1 else r + 1

/-- JS array indexing; out-of-range reads yield "undefined". -/
def jsGet (l : List String) (i : Int) : String :=
  if i < 0 then "undefined" else l.getD i.toNat "undefined"

/-- theme.js lines 176-184: the toggle handler; computes the next mode over
the fixed cycle, writes it, then runs the full update (which re-reads the
store). Returns the new store and the update outcome. -/
def handleThemeToggle (store : Store) (sysPref : Option Bool) (hour : Nat) :
    Store × ThemeUpdate :=
  let currentMode := getStoredThemeMode store
  let currentIndex := jsIndexOf THEME_MODES currentMode
  let nextIndex := (currentIndex + 1) % 3
  let nextMode := jsGet THEME_MODES nextIndex
  let store2 := storeThemeMode store nextMode
  (store2, updateTheme store2 sysPref hour)

/-- theme.js line 134: `const boundaries = [5, 10, 16, 19]`. -/
def phaseBoundaries : List Nat := [5, 10, 16, 19]

/-- theme.js lines 127-153 before the clamp: the raw difference
`targetTime.getTime() - now.getTime()` in milliseconds. The target is the
found boundary (first boundary hour strictly greater than the current
hour, else the first boundary of the next day) at minute/second/ms zero;
`now.getTime()` carries the current ms-of-day including milliseconds. -/
def naiveNextPhaseDelay (hour minute second ms : Nat) : Int :=
  let nextBoundary :=
    match phaseBoundaries.find? (fun b => hour < b) with
    | some b => b
    | none => phaseBoundaries.headD 0 + 24
  let targetMs : Int :=
    (nextBoundary % 24) * 3600000 + (if 24 ≤ nextBoundary then 86400000 else 0)
  let nowMs : Int := hour * 3600000 + minute * 60000 + second * 1000 + ms
  targetMs - nowMs

/-- theme.js lines 127-155: milliseconds until the next phase boundary,
clamped by `Math.max(diff, 1000)`. -/
def getTimeUntilNextPhase (hour minute second ms : Nat) : Int :=
  max (naiveNextPhaseDelay hour minute second ms) 1000

/-- The scheduler's observable state: the `currentTimeout` handle variable
(theme.js line 27), the set of timers outstanding in the host, and the
next fresh timer handle. -/
structure SchedulerState where
  currentTimeout : Option Nat
  outstanding : List Nat
  nextId : Nat
deriving DecidableEq

/-- theme.js lines 160-171: cancel any pending timer held in
`currentTimeout`, then arm a fresh one-shot timer whose callback runs the
full update and re-arms (modelled by `fireTimer`). -/
def schedulePhaseUpdate (s : SchedulerState) : SchedulerState :=
  let s1 :=
    match s.currentTimeout with
    | some t => { s with outstanding := s.outstanding.erase t }
    | none => s
  { currentTimeout := some s1.nextId
    outstanding := s1.outstanding ++ [s1.nextId]
    nextId := s1.nextId + 1 }

/-- A one-shot timer `t` fires: the host retires it, and its callback
(theme.js lines 167-170) runs `updateTheme` (pure, modelled separately)
and then `schedulePhaseUpdate` to re-arm. -/
def fireTimer (t : Nat) (s : SchedulerState) : SchedulerState :=
  schedulePhaseUpdate { s with outstanding := s.outstanding.erase t }

/-- theme.js lines 316-323: the beforeunload handler clears any pending
timer (the handle variable itself is left as is). -/
def teardown (s : SchedulerState) : SchedulerState :=
  match s.currentTimeout with
  | some t => { s with outstanding := s.outstanding.erase t }
  | none => s

/-- The scheduler states reachable in a session: the initial state, then
arming (initializeTheme and every re-arm), a firing of an outstanding
timer, and teardown, in any order the event loop can produce. -/
inductive SchedReachable : SchedulerState → Prop where
  | init : SchedReachable ⟨none, [], 0⟩
  | arm {s} : SchedReachable s → SchedReachable (schedulePhaseUpdate s)
  | fire {s} (t : Nat) : SchedReachable s → t ∈ s.outstanding →
      SchedReachable (fireTimer t s)
  | unload {s} : SchedReachable s → SchedReachable (teardown s)

/-- `needle` begins `hay` (character lists). -/
def listStartsWith : List Char → List Char → Bool
  | _, [] => true
  | [], _ :: _ => false
  | a :: as, b :: bs => a == b && listStartsWith as bs

/-- `needle` occurs contiguously in `hay` (character lists). -/
def listContainsSub : List Char → List Char → Bool
  | hay, needle =>
    listStartsWith hay needle ||
      match hay with
      | [] => false
      | _ :: rest => listContainsSub rest needle

/-- JS `String.prototype.includes`: substring containment. -/
def jsIncludes (hay needle : String) : Bool :=
  listContainsSub hay.toList needle.toList

/-- JS `String.prototype.endsWith`. -/
def jsEndsWith (s suffix : String) : Bool :=
  listStartsWith s.toList.reverse suffix.toList.reverse

/-- theme.js lines 221-224: the condition under which a nav link gets
`aria-current="page"`. -/
def navLinkIsCurrent (currentPath linkPath : String) : Bool :=
  currentPath == linkPath ||
  (currentPath == "/" && jsEndsWith linkPath "/index.html") ||
  (jsEndsWith currentPath "/index.html" && linkPath == "/") ||
  (jsIncludes currentPath linkPath && linkPath != "/")

/-- The spec's intended normalization for nav matching: a trailing
`/index.html` is equivalent to the bare directory path. -/
def stripIndexHtml (p : String) : String :=
  if jsEndsWith p "/index.html" then String.mk (p.toList.take (p.toList.length - 10))
  else p

/-- theme.js lines 268-274: the pre-paint copy of the phase resolver. -/
def prePaintGetPhase (hour : Nat) : String :=
  if 5 ≤ hour ∧ hour < 10 then "morning"
  else if 10 ≤ hour ∧ hour < 16 then "afternoon"
  else if 16 ≤ hour ∧ hour < 19 then "evening"
  else "night"

/-- theme.js lines 276-283: the pre-paint copy of the stored-mode read. -/
def prePaintGetMode (store : Store) : String :=
  match store with
  | none => "auto"
  | some stored =>
    match stored with
    | some s => if ["auto", "light", "dark"].contains s then s else "auto"
    | none => "auto"

/-- theme.js lines 285-294: the pre-paint copy of the effective-theme
resolver, with the matchMedia read and its catch inlined. -/
def prePaintGetTheme (mode : String) (sysPref : Option Bool) : String :=
  if mode == "auto" then
    match sysPref with
    | none => "light"
    | some m => if m then "dark" else "light"
  else mode

/-- theme.js lines 267-303: the standalone pre-paint path; returns the
(data-mode, data-theme, data-phase) triple it sets on the root. -/
def prePaintTheme (store : Store) (sysPref : Option Bool) (hour : Nat) :
    String × String × String :=
  let mode := prePaintGetMode store
  let phase := prePaintGetPhase hour
  let theme := prePaintGetTheme mode sysPref
  (mode, theme, phase)

/-! Helper lemmas shared by several claim theorems. -/

/-- The stored-mode read always yields one of the three valid modes. -/
theorem getStoredThemeMode_cases (store : Store) :
    getStoredThemeMode store = "auto" ∨ getStoredThemeMode store = "light" ∨
      getStoredThemeMode store = "dark" := by
  rcases store with _ | stored
  · exact Or.inl rfl
  · rcases stored with _ | s
    · exact Or.inl rfl
    · by_cases hc : THEME_MODES.contains s
      · have hmem : s ∈ THEME_MODES := by simpa using hc
        simp only [getStoredThemeMode, if_pos hc]
        simpa [THEME_MODES] using hmem
      · have hnm : s ∉ THEME_MODES := by simpa using hc
        simp [getStoredThemeMode, hnm]

/-- On an available backend, the toggle persists exactly the computed next
mode. -/
theorem handleThemeToggle_fst_avail (x : Option String) (sysPref : Option Bool)
    (hour : Nat) :
    (handleThemeToggle (some x) sysPref hour).1 =
      some (some (jsGet THEME_MODES
        ((jsIndexOf THEME_MODES (getStoredThemeMode (some x)) + 1) % 3))) := rfl

/-! Claim theorems. -/

/-- C1: for every hour h in [0,24), the phase resolver returns exactly one
of morning/afternoon/evening/night, with morning on [5,10), afternoon on
[10,16), evening on [16,19), night otherwise; in particular
phase(5)=morning, phase(10)=afternoon, phase(16)=evening, phase(19)=night,
phase(4)=night, phase(0)=night. -/
theorem phase_resolver_correct (h : Nat) (hh : h < 24) :
    (getCurrentPhase h = "morning" ∨ getCurrentPhase h = "afternoon" ∨
      getCurrentPhase h = "evening" ∨ getCurrentPhase h = "night") ∧
    (getCurrentPhase h = "morning" ↔ 5 ≤ h ∧ h < 10) ∧
    (getCurrentPhase h = "afternoon" ↔ 10 ≤ h ∧ h < 16) ∧
    (getCurrentPhase h = "evening" ↔ 16 ≤ h ∧ h < 19) ∧
    (getCurrentPhase h = "night" ↔ (19 ≤ h ∨ h < 5)) ∧
    getCurrentPhase 5 = "morning" ∧ getCurrentPhase 10 = "afternoon" ∧
    getCurrentPhase 16 = "evening" ∧ getCurrentPhase 19 = "night" ∧
    getCurrentPhase 4 = "night" ∧ getCurrentPhase 0 = "night" := by
  interval_cases h <;> decide

/-- Witness for C1 at hour 7. -/
theorem phase_resolver_correct_witness : getCurrentPhase 7 = "morning" :=
  ((phase_resolver_correct 7 (by decide)).2.1).mpr (by decide)

/-- C2: for every mode among the three valid modes and every system
preference (available dark/light, or a throwing query), the effective
theme is the system preference when mode is auto and the mode itself
otherwise, and a throwing media query defaults the system preference to
"light". -/
theorem effective_theme_resolver_correct (mode : String) (sysPref : Option Bool)
    (hm : mode ∈ THEME_MODES) :
    (mode = "auto" → getEffectiveTheme mode sysPref = getSystemTheme sysPref) ∧
    (mode ≠ "auto" → getEffectiveTheme mode sysPref = mode) ∧
    getSystemTheme none = "light" ∧
    getSystemTheme (some true) = "dark" ∧
    getSystemTheme (some false) = "light" ∧
    getEffectiveTheme "light" (some true) = "light" ∧
    getEffectiveTheme "dark" (some false) = "dark" ∧
    getEffectiveTheme "auto" (some true) = "dark" ∧
    getEffectiveTheme "auto" (some false) = "light" := by
  have hm' : mode = "auto" ∨ mode = "light" ∨ mode = "dark" := by
    simpa [THEME_MODES] using hm
  refine ⟨?_, ?_, by decide, by decide, by decide, by decide, by decide,
    by decide, by decide⟩
  · intro h
    subst h
    rfl
  · intro hne
    rcases hm' with rfl | rfl | rfl
    · exact absurd rfl hne
    · rfl
    · rfl

/-- Witness for C2 at mode "auto" with a dark system preference. -/
theorem effective_theme_resolver_correct_witness :
    getEffectiveTheme "auto" (some true) = getSystemTheme (some true) :=
  (effective_theme_resolver_correct "auto" (some true) (by decide)).1 rfl

/-- C3: the store read returns the persisted value when it is one of the
three valid mode literals and "auto" for any other value, for an unset
key, and for a throwing backend (the read is a total function, so it never
raises); a successful write of "dark" round-trips through a subsequent
read. -/
theorem mode_store_correct (store : Store) (v w : String)
    (hv : v ∈ THEME_MODES) (hw : w ∉ THEME_MODES) :
    getStoredThemeMode (some (some v)) = v ∧
    getStoredThemeMode (some (some w)) = "auto" ∧
    getStoredThemeMode (some none : Store) = "auto" ∧
    getStoredThemeMode (none : Store) = "auto" ∧
    getStoredThemeMode store ∈ THEME_MODES ∧
    (store ≠ none → getStoredThemeMode (storeThemeMode store "dark") = "dark") := by
  refine ⟨?_, ?_, rfl, rfl, ?_, ?_⟩
  · have hc : THEME_MODES.contains v = true := by simpa using hv
    simp [getStoredThemeMode, hv]
  · have hc : THEME_MODES.contains w = false := by simpa using hw
    simp [getStoredThemeMode, hw]
  · rcases getStoredThemeMode_cases store with h | h | h <;> simp [h, THEME_MODES]
  · intro hav
    rcases store with _ | x
    · exact absurd rfl hav
    · rfl

/-- Witness for C3: round-trip of "dark" through an available store that
held the invalid value "blue". -/
theorem mode_store_correct_witness :
    getStoredThemeMode (storeThemeMode (some (some "blue")) "dark") = "dark" :=
  (mode_store_correct (some (some "blue")) "dark" "blue" (by decide) (by decide)).2.2.2.2.2
    (fun h => Option.noConfusion h)

/-- C4: on an available backend, one toggle activation persists exactly
MODES[(index(current)+1) % 3] over the cycle [auto, light, dark]
(auto maps to light, light to dark, dark to auto), re-runs the full theme
update on the newly persisted store, and three consecutive activations
starting from mode "auto" return the mode to "auto". -/
theorem toggle_cycle_correct (store : Store) (sysPref : Option Bool) (hour : Nat)
    (hav : store ≠ none) :
    (handleThemeToggle store sysPref hour).1 =
      storeThemeMode store (jsGet THEME_MODES
        ((jsIndexOf THEME_MODES (getStoredThemeMode store) + 1) % 3)) ∧
    getStoredThemeMode (handleThemeToggle store sysPref hour).1 =
      jsGet THEME_MODES
        ((jsIndexOf THEME_MODES (getStoredThemeMode store) + 1) % 3) ∧
    (handleThemeToggle store sysPref hour).2 =
      updateTheme (handleThemeToggle store sysPref hour).1 sysPref hour ∧
    (getStoredThemeMode store = "auto" →
      jsGet THEME_MODES ((jsIndexOf THEME_MODES (getStoredThemeMode store) + 1) % 3)
        = "light") ∧
    (getStoredThemeMode store = "light" →
      jsGet THEME_MODES ((jsIndexOf THEME_MODES (getStoredThemeMode store) + 1) % 3)
        = "dark") ∧
    (getStoredThemeMode store = "dark" →
      jsGet THEME_MODES ((jsIndexOf THEME_MODES (getStoredThemeMode store) + 1) % 3)
        = "auto") ∧
    (getStoredThemeMode store = "auto" →
      getStoredThemeMode
        (handleThemeToggle
          (handleThemeToggle (handleThemeToggle store sysPref hour).1 sysPref hour).1
          sysPref hour).1 = "auto") := by
  obtain ⟨x, rfl⟩ : ∃ x, store = some x := by
    rcases store with _ | x
    · exact absurd rfl hav
    · exact ⟨x, rfl⟩
  rcases getStoredThemeMode_cases (some x) with hcur | hcur | hcur <;>
    refine ⟨rfl, ?_, rfl, ?_, ?_, ?_, ?_⟩ <;>
    simp only [handleThemeToggle_fst_avail, hcur] <;>
    decide

/-- Witness for C4: one toggle on a fresh available store (reading "auto")
persists "light". -/
theorem toggle_cycle_correct_witness :
    getStoredThemeMode (handleThemeToggle (some none : Store) none 0).1 =
      jsGet THEME_MODES
        ((jsIndexOf THEME_MODES (getStoredThemeMode (some none : Store)) + 1) % 3) :=
  (toggle_cycle_correct (some none) none 0 (fun h => Option.noConfusion h)).2.1

/-- C5 counterexample: at 04:59:59.500 the naive computed delay is 500 ms,
which is strictly positive, yet the returned delay is the 1000 ms floor —
so the floor does not apply only when the naive delay would be ≤ 0. -/
theorem boundary_delay_floor_counterexample :
    naiveNextPhaseDelay 4 59 59 500 = 500 ∧
    ¬ naiveNextPhaseDelay 4 59 59 500 ≤ 0 ∧
    getTimeUntilNextPhase 4 59 59 500 = 1000 ∧
    getTimeUntilNextPhase 4 59 59 500 ≠ naiveNextPhaseDelay 4 59 59 500 := by
  decide

/-- C5 amended: the boundary-delay computation returns the milliseconds
until the soonest boundary strictly after now, clamped to a minimum of
1000 ms: 2 h at 14:00:00, 9 h at 20:00:00, and at exactly 05:00:00.000
the next boundary is 10:00; the naive delay is always strictly positive,
and the 1000 ms floor applies exactly when the naive delay is below
1000 ms (never because it is ≤ 0). -/
theorem boundary_delay_correct (h m s ms : Nat)
    (hh : h < 24) (hm : m < 60) (hs : s < 60) (hms : ms < 1000) :
    getTimeUntilNextPhase 14 0 0 0 = 7200000 ∧
    getTimeUntilNextPhase 20 0 0 0 = 32400000 ∧
    getTimeUntilNextPhase 5 0 0 0 = 18000000 ∧
    naiveNextPhaseDelay 5 0 0 0 = 18000000 ∧
    0 < naiveNextPhaseDelay h m s ms ∧
    (getTimeUntilNextPhase h m s ms = naiveNextPhaseDelay h m s ms ↔
      1000 ≤ naiveNextPhaseDelay h m s ms) := by
  refine ⟨by decide, by decide, by decide, by decide, ?_, max_eq_left_iff⟩
  interval_cases h <;> simp [naiveNextPhaseDelay, phaseBoundaries] <;> omega

/-- Witness for C5 at 08:30:00.000. -/
theorem boundary_delay_correct_witness : 0 < naiveNextPhaseDelay 8 30 0 0 :=
  (boundary_delay_correct 8 30 0 0 (by decide) (by decide) (by decide)
    (by decide)).2.2.2.2.1

/-- C6 counterexample: with a throwing persistence backend, the mode read
before the toggle is "auto" and the computed next mode is "light", but the
theme update that follows the failed write applies "auto" — the
previously effective mode — not the newly computed "light". -/
theorem toggle_failed_write_counterexample :
    getStoredThemeMode (none : Store) = "auto" ∧
    jsGet THEME_MODES
      ((jsIndexOf THEME_MODES (getStoredThemeMode (none : Store)) + 1) % 3)
      = "light" ∧
    (handleThemeToggle none (some false) 12).2.dataMode = "auto" ∧
    (handleThemeToggle none (some false) 12).2.dataMode ≠ "light" := by
  decide

/-- C6 amended: when the persistence write fails, the error is swallowed
(the toggle still completes and re-runs the full update), but the update
re-reads the mode from the backend rather than from memory, so on a
throwing backend the update applies the fail-open default "auto" — the
previously effective mode — and the toggle is a no-op for the session. -/
theorem toggle_failed_write_amended (sysPref : Option Bool) (hour : Nat) :
    (handleThemeToggle none sysPref hour).1 = none ∧
    (handleThemeToggle none sysPref hour).2 = updateTheme none sysPref hour ∧
    (handleThemeToggle none sysPref hour).2.dataMode = "auto" :=
  ⟨rfl, rfl, rfl⟩

/-- C7: on a fresh session (backend available, key unset), with a dark
system preference at local time 08:30, the full update yields
data-mode="auto", data-theme="dark", data-phase="morning" and the label
"Auto • morning"; in general the label is "Auto • {phase}" in auto mode
and "Light"/"Dark" verbatim otherwise. -/
theorem end_to_end_fresh_session (store : Store) (sysPref : Option Bool)
    (hour : Nat) :
    updateTheme (some none : Store) (some true) 8 =
      ⟨"auto", "dark", "morning", "Auto • morning"⟩ ∧
    (getStoredThemeMode store = "auto" →
      (updateTheme store sysPref hour).label = "Auto • " ++ getCurrentPhase hour) ∧
    (getStoredThemeMode store = "light" →
      (updateTheme store sysPref hour).label = "Light") ∧
    (getStoredThemeMode store = "dark" →
      (updateTheme store sysPref hour).label = "Dark") := by
  refine ⟨by decide, ?_, ?_, ?_⟩ <;>
    intro hmode <;> simp [updateTheme, updateThemeLabel, hmode]

/-- Witness for C7: the label on an available store holding "dark". -/
theorem end_to_end_fresh_session_witness :
    (updateTheme (some (some "dark")) none 3).label = "Dark" :=
  (end_to_end_fresh_session (some (some "dark")) none 3).2.2.2 (by decide)

/-- Invariant of the boundary scheduler: either no timer is outstanding, or
exactly one is and the `currentTimeout` variable holds its handle. -/
theorem sched_inv (s : SchedulerState) (h : SchedReachable s) :
    s.outstanding = [] ∨
      ∃ t, s.outstanding = [t] ∧ s.currentTimeout = some t := by
  induction h with
  | init => exact Or.inl rfl
  | @arm s' h ih =>
    refine Or.inr ⟨s'.nextId, ?_, ?_⟩ <;>
      rcases ih with hout | ⟨t, hout, hct⟩ <;>
      rcases hs : s'.currentTimeout with _ | u <;>
      simp_all [schedulePhaseUpdate]
  | @fire s' t h ht ih =>
    rcases ih with hout | ⟨u, hout, hct⟩
    · rw [hout] at ht
      simp at ht
    · have htu : t = u := by
        rw [hout] at ht
        simpa using ht
      subst htu
      refine Or.inr ⟨s'.nextId, ?_, ?_⟩ <;>
        simp_all [fireTimer, schedulePhaseUpdate]
  | @unload s' h ih =>
    refine Or.inl ?_
    rcases ih with hout | ⟨u, hout, hct⟩ <;>
      rcases hs : s'.currentTimeout with _ | v <;>
      simp_all [teardown]

/-- C8: in every reachable scheduler state at most one timer is
outstanding; arming from any reachable state again leaves at most one
outstanding (the pending one is cancelled first), a firing timer re-arms
into a state with at most one outstanding, and teardown leaves none. -/
theorem scheduler_single_timer (s : SchedulerState) (h : SchedReachable s) :
    s.outstanding.length ≤ 1 ∧
    (schedulePhaseUpdate s).outstanding.length ≤ 1 ∧
    (∀ t ∈ s.outstanding, (fireTimer t s).outstanding.length ≤ 1) ∧
    (teardown s).outstanding = [] := by
  have h1 := sched_inv s h
  have h2 := sched_inv _ (SchedReachable.arm h)
  refine ⟨?_, ?_, ?_, ?_⟩
  · rcases h1 with hout | ⟨t, hout, _⟩ <;> simp [hout]
  · rcases h2 with hout | ⟨t, hout, _⟩ <;> simp [hout]
  · intro t ht
    have h3 := sched_inv _ (SchedReachable.fire t h ht)
    rcases h3 with hout | ⟨u, hout, _⟩ <;> simp [hout]
  · have h4 := sched_inv _ (SchedReachable.unload h)
    rcases h1 with hout | ⟨t, hout, hct⟩ <;>
      rcases hs : s.currentTimeout with _ | v <;>
      simp_all [teardown]

/-- Witness for C8: the state after the initial arming. -/
theorem scheduler_single_timer_witness :
    (schedulePhaseUpdate ⟨none, [], 0⟩).outstanding.length ≤ 1 ∧
    (schedulePhaseUpdate (schedulePhaseUpdate ⟨none, [], 0⟩)).outstanding.length ≤ 1 ∧
    (∀ t ∈ (schedulePhaseUpdate ⟨none, [], 0⟩).outstanding,
      (fireTimer t (schedulePhaseUpdate ⟨none, [], 0⟩)).outstanding.length ≤ 1) ∧
    (teardown (schedulePhaseUpdate ⟨none, [], 0⟩)).outstanding = [] :=
  scheduler_single_timer _ (SchedReachable.arm SchedReachable.init)

/-- C9: the navigation matcher marks the link "/contact.html" as current on
the page "/projects/contact.html" through the substring-containment
fallback, although the two paths are neither equal nor equivalent under
the trailing /index.html normalization. -/
theorem nav_matching_substring_misfire :
    navLinkIsCurrent "/projects/contact.html" "/contact.html" = true ∧
    ("/projects/contact.html" == "/contact.html") = false ∧
    stripIndexHtml "/projects/contact.html" ≠ stripIndexHtml "/contact.html" ∧
    ("/projects/contact.html" == "/") = false ∧
    ("/contact.html" == "/") = false ∧
    jsEndsWith "/projects/contact.html" "/index.html" = false ∧
    jsEndsWith "/contact.html" "/index.html" = false ∧
    jsIncludes "/projects/contact.html" "/contact.html" = true := by
  decide

/-- C10: for every hour, stored value (including unset, invalid and a
throwing backend) and system preference (including an unavailable media
query), the standalone pre-paint path computes exactly the attribute
triple of the main path: its duplicated phase, mode and theme logic is
extensionally equal to the controller's functions. -/
theorem prepaint_matches_main_path (store : Store) (sysPref : Option Bool)
    (hour : Nat) :
    prePaintGetPhase hour = getCurrentPhase hour ∧
    prePaintGetMode store = getStoredThemeMode store ∧
    prePaintGetTheme (prePaintGetMode store) sysPref =
      getEffectiveTheme (getStoredThemeMode store) sysPref ∧
    prePaintTheme store sysPref hour =
      ((updateTheme store sysPref hour).dataMode,
       (updateTheme store sysPref hour).dataTheme,
       (updateTheme store sysPref hour).dataPhase) :=
  ⟨rfl, rfl, rfl, rfl⟩
